import Mathlib

/-!
Verification of the `kql-language-tools` crate's library-loading and
FFI call-marshalling core, shallowly embedded in Lean from the Rust
sources (`src/ffi.rs`, `src/error.rs`, `src/types.rs`, `src/loader.rs`,
`src/validator.rs`).

Conventions of the embedding:
* byte strings are `List Nat`; machine integers are `Int`/`Nat` with the
  `c_int` range made explicit where the source casts or checks it;
* a native FFI function is an oracle `FfiFn`: given the index of the call
  (0 = first attempt, 1 = retry) and the output buffer's capacity it
  returns the native result code and the bytes it wrote into the buffer's
  prefix;
* the external crates `std` (`str::from_utf8`) and `serde_json`
  (`from_str`, `to_string`) are parameters of the functions that use
  them: the embedding receives a UTF-8 decoder and a JSON parser as
  arguments and models serialization by taking the serialized bytes as
  input;
* every function that performs native calls additionally returns a trace
  of those calls, so that call counts and the arguments passed can be
  stated as theorems;
* a Rust slice-indexing panic is modelled explicitly as the `panicked`
  outcome, distinct from a returned error.
-/

/-! ## `src/ffi.rs`: constants and return codes -/

/-- Default buffer size for FFI output (64KB), `ffi.rs` line 151. -/
def DEFAULT_BUFFER_SIZE : Nat := 64 * 1024

/-- Maximum buffer size for FFI output (4MB), `ffi.rs` line 154. -/
def MAX_BUFFER_SIZE : Nat := 4 * 1024 * 1024

/-- Buffer too small sentinel, `ffi.rs` `return_codes::BUFFER_TOO_SMALL`. -/
def BUFFER_TOO_SMALL : Int := -1

/-- The `return_codes::is_success` predicate: `code >= 0`. -/
def is_success (code : Int) : Bool := decide (0 ≤ code)

/-- The `return_codes::is_buffer_too_small` predicate: `code == BUFFER_TOO_SMALL`. -/
def is_buffer_too_small (code : Int) : Bool := code == BUFFER_TOO_SMALL

/-- Largest value of `c_int` (the native call integer width, 32 bits). -/
def cIntMax : Nat := 2147483647

/-- The wrapping cast `usize as c_int` on a 64-bit platform: truncate to
32 bits and reinterpret as signed two's complement. -/
def castCInt (n : Nat) : Int :=
  let m := n % 4294967296
  if m < 2147483648 then (m : Int) else (m : Int) - 4294967296

/-! ## `src/error.rs`: the `Error` enum -/

/-- The crate's `Error` enum (`error.rs` lines 8-48). `Json` and `Utf8`
carry the external error rendered as a string. -/
inductive Error where
  | LibraryNotFound (searched_paths : List String)
  | LibraryLoadFailed (path : String) (message : String)
  | SymbolNotFound (symbol : String)
  | InitializationFailed (message : String)
  | NativeError (code : Int) (message : String)
  | BufferTooSmall (needed : Nat) (available : Nat)
  | Json (message : String)
  | Utf8 (message : String)
  | NotInitialized
  | Internal (message : String)
deriving DecidableEq, Repr

/-- The fixed human-readable reason `Error::from_native_code` chooses for a
native result code (`error.rs` lines 63-68): the match on `-1`, `-2`, `-3`
and the catch-all. -/
def native_code_reason (code : Int) : String :=
  if code = -1 then "Buffer too small"
  else if code = -2 then "Parse error in input"
  else if code = -3 then "Internal error"
  else "Unknown error code: " ++ toString code

/-- The constructor `Error::from_native_code` (`error.rs` lines 62-73). -/
def Error.from_native_code (code : Int) (context : String) : Error :=
  Error.NativeError code (context ++ ": " ++ native_code_reason code)

/-! ## `src/types.rs`: validation result shapes -/

/-- The `DiagnosticSeverity` enum (`types.rs` lines 119-128). -/
inductive DiagnosticSeverity where
  | Error
  | Warning
  | Information
  | Hint
deriving DecidableEq, Repr

/-- The `Diagnostic` record (`types.rs` lines 78-94). The source field
`end` is a Lean keyword and is embedded as `end_`. -/
structure Diagnostic where
  message : String
  severity : DiagnosticSeverity
  start : Nat
  end_ : Nat
  line : Nat
  column : Nat
  code : Option String
deriving DecidableEq, Repr

/-- The `ValidationResult` record (`types.rs` lines 7-12). -/
structure ValidationResult where
  valid : Bool
  diagnostics : List Diagnostic
deriving DecidableEq, Repr

/-- The constructor `ValidationResult::valid()` (`types.rs` lines 17-22);
named `mk_valid` here because `valid` is the field's name. -/
def ValidationResult.mk_valid : ValidationResult :=
  { valid := true, diagnostics := [] }

/-! ## `src/completion.rs` and `src/classification.rs`: result shapes -/

/-- The `CompletionKind` enum (`completion.rs`). The source constructor
`Type` is a Lean keyword and is embedded as `TypeName`. -/
inductive CompletionKind where
  | Keyword
  | Function
  | AggregateFunction
  | Table
  | Column
  | Variable
  | Operator
  | Parameter
  | Database
  | Cluster
  | TypeName
  | Punctuation
  | Other
deriving DecidableEq, Repr

/-- The `CompletionItem` record (`completion.rs`). -/
structure CompletionItem where
  label : String
  kind : CompletionKind
  detail : Option String
  insert_text : Option String
  sort_order : Int
  edit_start : Nat
deriving DecidableEq, Repr

/-- The `CompletionResult` record (`completion.rs`). -/
structure CompletionResult where
  items : List CompletionItem
deriving DecidableEq, Repr

/-- The derived `Default` for `CompletionResult`: an empty item list. -/
def CompletionResult.default : CompletionResult := { items := [] }

/-- The `ClassificationKind` enum (`classification.rs`). The source
constructor `Type` is a Lean keyword and is embedded as `TypeName`. -/
inductive ClassificationKind where
  | PlainText
  | Comment
  | Punctuation
  | Directive
  | Literal
  | StringLiteral
  | TypeName
  | Identifier
  | Column
  | Table
  | Database
  | ScalarFunction
  | AggregateFunction
  | Keyword
  | Operator
  | Variable
  | Parameter
  | CommandKeyword
  | QueryOperator
  | ScalarOperator
  | MaterializedViewFunction
  | Plugin
  | OptionName
  | ClientDirective
  | QueryParameter
  | Cluster
deriving DecidableEq, Repr

/-- The `ClassifiedSpan` record (`classification.rs`). -/
structure ClassifiedSpan where
  start : Nat
  length : Nat
  kind : ClassificationKind
deriving DecidableEq, Repr

/-- The `ClassificationResult` record (`classification.rs`). -/
structure ClassificationResult where
  spans : List ClassifiedSpan
deriving DecidableEq, Repr

/-- The derived `Default` for `ClassificationResult`: an empty span list. -/
def ClassificationResult.default : ClassificationResult := { spans := [] }

/-! ## The output buffer

A `Vec<u8>` used as the native call's output parameter. The capacity is
kept as its own field so that size arithmetic in theorems does not force
the byte list; `Buf` operations keep `data.length = cap` (proved below). -/

/-- A caller-owned output buffer: its capacity and its contents. -/
structure Buf where
  cap : Nat
  data : List Nat
deriving DecidableEq, Repr

/-- `vec![0u8; n]`: a zero-filled buffer of capacity `n`. -/
def Buf.new (n : Nat) : Buf := ⟨n, List.replicate n 0⟩

/-- The effect of a native call writing the bytes `w` into the buffer's
prefix: the prefix is overwritten (truncated at the capacity), the rest of
the contents is preserved. -/
def Buf.write (b : Buf) (w : List Nat) : Buf :=
  ⟨b.cap, w.take b.cap ++ b.data.drop w.length⟩

/-- `Vec::resize(n, 0)`: extend with zeros (or truncate) to length `n`. -/
def Buf.resize (b : Buf) (n : Nat) : Buf :=
  ⟨n, b.data.take n ++ List.replicate (n - b.data.length) 0⟩

theorem Buf.new_data_length (n : Nat) : (Buf.new n).data.length = n := by
  simp [Buf.new]

theorem Buf.write_data_length (b : Buf) (w : List Nat)
    (h : b.data.length = b.cap) : (b.write w).data.length = b.cap := by
  simp [Buf.write, h]
  omega

theorem Buf.resize_data_length (b : Buf) (n : Nat)
    (h : b.data.length = b.cap) : (b.resize n).data.length = n := by
  simp [Buf.resize, h]
  omega

/-! ## The call protocol (`src/validator.rs`) -/

/-- A simulated native FFI function, as the call protocol sees it: from
the index of the attempt (`0` = first call, `1` = the single retry) and
the output buffer's capacity to the native result code and the bytes the
native side wrote into the buffer's prefix. -/
abbrev FfiFn := Nat → Nat → Int × List Nat

/-- Outcome of a protocol call: a returned value, a returned `Error`, or
a Rust panic (which is not a return at all). -/
inductive CallResult (α : Type) where
  | ok (v : α)
  | err (e : Error)
  | panicked (message : String)
deriving DecidableEq, Repr

/-- The common tail of `call_ffi_with_retry` and `call_ffi_json`
(`validator.rs` lines 322-341 and 373-391): translate a non-success code
into a `NativeError` (with the best-effort `get_last_error` message as
context), map `0` to the empty value, and otherwise decode the first
`result` bytes of the buffer as UTF-8 and parse them as JSON.
`&buffer[..json_len]` panics when `json_len` exceeds the buffer's
length; the panic is modelled explicitly. -/
def finish_call {α : Type} (lastError : Option String) (buffer : Buf)
    (result : Int) (utf8 : List Nat → Except String String)
    (parse : String → Except String α) (empty : α) : CallResult α :=
  if !is_success result then
    CallResult.err (Error.from_native_code result (lastError.getD ""))
  else if result = 0 then
    CallResult.ok empty
  else if result.toNat ≤ buffer.cap then
    match utf8 (buffer.data.take result.toNat) with
    | Except.error e => CallResult.err (Error.Utf8 e)
    | Except.ok s =>
      match parse s with
      | Except.error e => CallResult.err (Error.Json e)
      | Except.ok v => CallResult.ok v
  else
    CallResult.panicked "range end index out of range for slice"

/-- `KqlValidator::call_ffi_with_retry` (`validator.rs` lines 293-341).
`lastError` is the result of the separate bounded `get_last_error` call.
Additionally returns the capacities of the output buffers passed to the
native function, one entry per native call, in order. -/
def call_ffi_with_retry (ffi_call : FfiFn)
    (utf8 : List Nat → Except String String)
    (parse : String → Except String ValidationResult)
    (lastError : Option String) : CallResult ValidationResult × List Nat :=
  let buffer := Buf.new DEFAULT_BUFFER_SIZE
  let call1 := ffi_call 0 buffer.cap
  let buffer := buffer.write call1.2
  let result := call1.1
  if is_buffer_too_small result then
    let new_size := buffer.cap * 2
    if new_size > MAX_BUFFER_SIZE then
      (CallResult.err (Error.BufferTooSmall new_size MAX_BUFFER_SIZE),
        [DEFAULT_BUFFER_SIZE])
    else
      let buffer := buffer.resize new_size
      let call2 := ffi_call 1 buffer.cap
      let buffer := buffer.write call2.2
      let result := call2.1
      if is_buffer_too_small result then
        (CallResult.err (Error.BufferTooSmall 0 buffer.cap),
          [DEFAULT_BUFFER_SIZE, new_size])
      else
        (finish_call lastError buffer result utf8 parse ValidationResult.mk_valid,
          [DEFAULT_BUFFER_SIZE, new_size])
  else
    (finish_call lastError buffer result utf8 parse ValidationResult.mk_valid,
      [DEFAULT_BUFFER_SIZE])

/-- `KqlValidator::call_ffi_json` (`validator.rs` lines 345-391): the
same retry protocol, deserializing into a generic shape; `dflt` is the
`T::default()` returned on an empty result. -/
def call_ffi_json {α : Type} (ffi_call : FfiFn)
    (utf8 : List Nat → Except String String)
    (parse : String → Except String α)
    (lastError : Option String) (dflt : α) : CallResult α × List Nat :=
  let buffer := Buf.new DEFAULT_BUFFER_SIZE
  let call1 := ffi_call 0 buffer.cap
  let buffer := buffer.write call1.2
  let result := call1.1
  if is_buffer_too_small result then
    let new_size := buffer.cap * 2
    if new_size > MAX_BUFFER_SIZE then
      (CallResult.err (Error.BufferTooSmall new_size MAX_BUFFER_SIZE),
        [DEFAULT_BUFFER_SIZE])
    else
      let buffer := buffer.resize new_size
      let call2 := ffi_call 1 buffer.cap
      let buffer := buffer.write call2.2
      let result := call2.1
      if is_buffer_too_small result then
        (CallResult.err (Error.BufferTooSmall 0 buffer.cap),
          [DEFAULT_BUFFER_SIZE, new_size])
      else
        (finish_call lastError buffer result utf8 parse dflt,
          [DEFAULT_BUFFER_SIZE, new_size])
  else
    (finish_call lastError buffer result utf8 parse dflt,
      [DEFAULT_BUFFER_SIZE])

/-! ## The loaded library and its public operations (`src/validator.rs`) -/

/-- The `LoadedLibrary` function table (`loader.rs` lines 145-171),
restricted to the data-returning entry points the call protocol invokes:
the required `validate_syntax` (embedded as `validate_syntax_op`) and the three optional entry points. Each
bound entry point is an `FfiFn` oracle (its non-buffer arguments — query
bytes, lengths, cursor — are fixed by the operation invoking it; the
`get_last_error` entry point is modelled by the `lastError` result the
operations thread through). -/
structure LoadedLibrary where
  validate_syntax_op : FfiFn
  validate_with_schema : Option FfiFn
  get_completions : Option FfiFn
  get_classifications : Option FfiFn

/-- `LoadedLibrary::supports_schema_validation` (`loader.rs` 282-284). -/
def LoadedLibrary.supports_schema_validation (l : LoadedLibrary) : Bool :=
  l.validate_with_schema.isSome

/-- `LoadedLibrary::supports_completion` (`loader.rs` 287-289). -/
def LoadedLibrary.supports_completion (l : LoadedLibrary) : Bool :=
  l.get_completions.isSome

/-- `LoadedLibrary::supports_classification` (`loader.rs` 292-294). -/
def LoadedLibrary.supports_classification (l : LoadedLibrary) : Bool :=
  l.get_classifications.isSome

/-- The arguments one native call received from a public operation: the
query length, the cursor position (completions only), the schema length
(schema validation and completions only) and the output capacity, each as
the `c_int` value actually passed. -/
structure NativeCall where
  queryLen : Int
  cursorPos : Option Int
  schemaLen : Option Int
  outCap : Int
deriving DecidableEq, Repr

/-- `KqlValidator::validate_syntax` (embedded as `validate_syntax_op`) (`validator.rs` lines 76-103): the
query length is checked against `c_int` (`c_int::try_from`, an
`Error::Internal` on overflow) before any native call; the protocol's
buffer-capacity trace is mapped to the full argument records. -/
def validate_syntax_op (lib : LoadedLibrary) (query : List Nat)
    (utf8 : List Nat → Except String String)
    (parse : String → Except String ValidationResult)
    (lastError : Option String) : CallResult ValidationResult × List NativeCall :=
  if query.length ≤ cIntMax then
    let r := call_ffi_with_retry lib.validate_syntax_op utf8 parse lastError
    (r.1, r.2.map fun cap =>
      { queryLen := (query.length : Int), cursorPos := none,
        schemaLen := none, outCap := castCInt cap })
  else
    (CallResult.err (Error.Internal
      ("Query too large: " ++ toString query.length ++ " bytes exceeds c_int max")), [])

/-- `KqlValidator::validate_with_schema` (`validator.rs` lines 124-163):
requires the optional entry point (`Error::Internal` otherwise), then
checks the query and serialized-schema lengths against `c_int` before any
native call. `schema_json` is the `serde_json::to_string(schema)` output
(serialization is external). -/
def validate_with_schema (lib : LoadedLibrary) (query schema_json : List Nat)
    (utf8 : List Nat → Except String String)
    (parse : String → Except String ValidationResult)
    (lastError : Option String) : CallResult ValidationResult × List NativeCall :=
  match lib.validate_with_schema with
  | none =>
    (CallResult.err (Error.Internal "Schema validation not supported by loaded library"), [])
  | some validate_fn =>
    if query.length ≤ cIntMax then
      if schema_json.length ≤ cIntMax then
        let r := call_ffi_with_retry validate_fn utf8 parse lastError
        (r.1, r.2.map fun cap =>
          { queryLen := (query.length : Int), cursorPos := none,
            schemaLen := some (schema_json.length : Int), outCap := castCInt cap })
      else
        (CallResult.err (Error.Internal
          ("Schema too large: " ++ toString schema_json.length ++ " bytes")), [])
    else
      (CallResult.err (Error.Internal
        ("Query too large: " ++ toString query.length ++ " bytes")), [])

/-- `KqlValidator::get_classifications` (`validator.rs` lines 199-227):
requires the optional entry point, checks the query length against
`c_int`, then runs the generic JSON protocol. -/
def get_classifications (lib : LoadedLibrary) (query : List Nat)
    (utf8 : List Nat → Except String String)
    (parse : String → Except String ClassificationResult)
    (lastError : Option String) : CallResult ClassificationResult × List NativeCall :=
  match lib.get_classifications with
  | none =>
    (CallResult.err (Error.Internal "Classification not supported by loaded library"), [])
  | some classify_fn =>
    if query.length ≤ cIntMax then
      let r := call_ffi_json classify_fn utf8 parse lastError ClassificationResult.default
      (r.1, r.2.map fun cap =>
        { queryLen := (query.length : Int), cursorPos := none,
          schemaLen := none, outCap := castCInt cap })
    else
      (CallResult.err (Error.Internal
        ("Query too large: " ++ toString query.length ++ " bytes")), [])

/-- `KqlValidator::get_completions` (`validator.rs` lines 247-289):
requires the optional entry point and checks the query length and cursor
position against `c_int`; the schema JSON's length, however, is passed
through the unchecked wrapping cast `json.len() as c_int` inside the
closure (`validator.rs` line 274) — it is not validated. `schema_json`
is the serialized optional schema (`None` passes a null pointer and
length 0). -/
def get_completions (lib : LoadedLibrary) (query : List Nat)
    (cursor_position : Nat) (schema_json : Option (List Nat))
    (utf8 : List Nat → Except String String)
    (parse : String → Except String CompletionResult)
    (lastError : Option String) : CallResult CompletionResult × List NativeCall :=
  match lib.get_completions with
  | none =>
    (CallResult.err (Error.Internal "Completion not supported by loaded library"), [])
  | some completions_fn =>
    if query.length ≤ cIntMax then
      if cursor_position ≤ cIntMax then
        let schema_len : Int :=
          match schema_json with
          | some json => castCInt json.length
          | none => 0
        let r := call_ffi_json completions_fn utf8 parse lastError CompletionResult.default
        (r.1, r.2.map fun cap =>
          { queryLen := (query.length : Int), cursorPos := some (cursor_position : Int),
            schemaLen := some schema_len, outCap := castCInt cap })
      else
        (CallResult.err (Error.Internal
          ("Cursor position too large: " ++ toString cursor_position)), [])
    else
      (CallResult.err (Error.Internal
        ("Query too large: " ++ toString query.length ++ " bytes")), [])

/-! ## Library resolution (`src/loader.rs`) -/

/-- The environment-variable name (`loader.rs` line 16). -/
def LIB_PATH_ENV : String := "KQL_LANGUAGE_TOOLS_PATH"

/-- The environment a resolution attempt observes: the override variable's
value (if set), the running executable's parent directory (if available),
the filesystem predicates, and the compile-time constants (`LIB_NAME`,
`CARGO_MANIFEST_DIR`, `current_rid()` — fields, so every platform is
covered). -/
structure Env where
  envVar : Option String
  exeDir : Option String
  isFile : String → Bool
  isDir : String → Bool
  pathExists : String → Bool
  libName : String
  manifestDir : String
  rid : String

/-- `PathBuf::join` on the embedding's string paths. -/
def pjoin (a b : String) : String := a ++ "/" ++ b

/-- The development-tree directory `{CARGO_MANIFEST_DIR}/dotnet/native/{rid}`
(`loader.rs` lines 90-93 and 129-132). -/
def native_dir (env : Env) : String :=
  pjoin (pjoin (pjoin env.manifestDir "dotnet") "native") env.rid

/-- Step 4 of `find_library_path` (`loader.rs` lines 100-105): the current
working directory (the bare library filename). `acc` accumulates the paths
probed so far. -/
def find_from_cwd (env : Env) (acc : List String) : Option String × List String :=
  if env.pathExists env.libName then (some env.libName, acc ++ [env.libName])
  else (none, acc ++ [env.libName])

/-- Step 3 of `find_library_path` (`loader.rs` lines 89-98): the
development-tree location. -/
def find_from_native (env : Env) (acc : List String) : Option String × List String :=
  let lib_path := pjoin (native_dir env) env.libName
  if env.pathExists lib_path then (some lib_path, acc ++ [lib_path])
  else find_from_cwd env (acc ++ [lib_path])

/-- Step 2 of `find_library_path` (`loader.rs` lines 78-87): the directory
containing the current executable. -/
def find_from_exe (env : Env) (acc : List String) : Option String × List String :=
  match env.exeDir with
  | some exe_dir =>
    let lib_path := pjoin exe_dir env.libName
    if env.pathExists lib_path then (some lib_path, acc ++ [lib_path])
    else find_from_native env (acc ++ [lib_path])
  | none => find_from_native env acc

/-- `find_library_path` (`loader.rs` lines 56-109). Additionally returns
the list of paths whose existence the function probed, in probe order
(the override value `p` is probed once, covering both `p.is_file()` and
`p.is_dir()`). -/
def find_library_path (env : Env) : Option String × List String :=
  match env.envVar with
  | some p =>
    if env.isFile p then (some p, [p])
    else if env.isDir p then
      let lib_path := pjoin p env.libName
      if env.pathExists lib_path then (some lib_path, [p, lib_path])
      else find_from_exe env [p, lib_path]
    else find_from_exe env [p]
  | none => find_from_exe env []

/-- `searched_paths` (`loader.rs` lines 112-139): every candidate path,
unconditionally, in search order. -/
def searched_paths (env : Env) : List String :=
  (match env.envVar with
   | some p => [p, pjoin p env.libName]
   | none => []) ++
  (match env.exeDir with
   | some exe_dir => [pjoin exe_dir env.libName]
   | none => []) ++
  [pjoin (native_dir env) env.libName, env.libName]

/-! ## The load sequence (`src/loader.rs`) -/

/-- An invocation of one of the lifecycle native entry points during the
load sequence: `kql_init`, the best-effort `kql_get_last_error` fetch of
the failure message, and `kql_cleanup` (run by `Drop for LoadedLibrary`). -/
inductive NativeEvent where
  | initCall
  | getLastErrorCall
  | cleanupCall
deriving DecidableEq, Repr

/-- What one load attempt observes of the outside world: the resolution
environment, whether `Library::new` succeeds (with the loader's message
when it does not), which exported symbols the opened library has, the
oracles bound for the data-returning symbols, the value `kql_init`
returns, and the result of the `kql_get_last_error` call made on the
failed-initialization path. (`ensure_dotnet_root` is best-effort and
never fails; it touches only `DOTNET_ROOT`, which nothing here reads, so
it is modelled as a no-op.) -/
structure LoadWorld where
  env : Env
  openOk : Bool
  loadErrMsg : String
  hasSymbol : String → Bool
  validateSyntaxFn : FfiFn
  validateWithSchemaFn : FfiFn
  getCompletionsFn : FfiFn
  getClassificationsFn : FfiFn
  initResult : Int
  lastErrorResult : Int
  lastErrorMsg : String

/-- `LoadedLibrary::load_from` (`loader.rs` lines 190-279): open the
library, bind the four required symbols in order (a missing one is a
`SymbolNotFound` error naming it), bind the three optional symbols as
`Option`s. -/
def load_from (w : LoadWorld) (path : String) : Except Error LoadedLibrary :=
  if !w.openOk then
    Except.error (Error.LibraryLoadFailed path w.loadErrMsg)
  else if !w.hasSymbol "kql_init" then
    Except.error (Error.SymbolNotFound "kql_init")
  else if !w.hasSymbol "kql_cleanup" then
    Except.error (Error.SymbolNotFound "kql_cleanup")
  else if !w.hasSymbol "kql_validate_syntax" then
    Except.error (Error.SymbolNotFound "kql_validate_syntax")
  else if !w.hasSymbol "kql_get_last_error" then
    Except.error (Error.SymbolNotFound "kql_get_last_error")
  else
    Except.ok
      { validate_syntax_op := w.validateSyntaxFn
        validate_with_schema :=
          if w.hasSymbol "kql_validate_with_schema" then some w.validateWithSchemaFn else none
        get_completions :=
          if w.hasSymbol "kql_get_completions" then some w.getCompletionsFn else none
        get_classifications :=
          if w.hasSymbol "kql_get_classifications" then some w.getClassificationsFn else none }

/-- The one-shot body of `load_library` (`loader.rs` lines 401-433), the
closure `LIBRARY.get_or_try_init` runs: resolve the path, load and bind,
invoke `kql_init`; on a non-zero init result, fetch the native message
best-effort and return `InitializationFailed` — whereupon the local
`LoadedLibrary` value is dropped, and `Drop for LoadedLibrary`
(`loader.rs` lines 297-305) invokes `kql_cleanup`. The second component
records the lifecycle entry points invoked, in order. -/
def load_library_once (w : LoadWorld) : Except Error LoadedLibrary × List NativeEvent :=
  match (find_library_path w.env).1 with
  | none => (Except.error (Error.LibraryNotFound (searched_paths w.env)), [])
  | some path =>
    match load_from w path with
    | Except.error e => (Except.error e, [])
    | Except.ok lib =>
      if w.initResult ≠ 0 then
        let message :=
          if w.lastErrorResult > 0 then w.lastErrorMsg
          else "Initialization returned error code: " ++ toString w.initResult
        (Except.error (Error.InitializationFailed message),
          [NativeEvent.initCall, NativeEvent.getLastErrorCall, NativeEvent.cleanupCall])
      else
        (Except.ok lib, [NativeEvent.initCall])

/-! ## Shape lemmas for the call protocol -/

theorem double_le_max : DEFAULT_BUFFER_SIZE * 2 ≤ MAX_BUFFER_SIZE := by decide

theorem call_ffi_with_retry_first_ok (f : FfiFn)
    (u : List Nat → Except String String)
    (p : String → Except String ValidationResult) (le : Option String)
    (h : is_buffer_too_small (f 0 DEFAULT_BUFFER_SIZE).1 = false) :
    call_ffi_with_retry f u p le =
      (finish_call le ((Buf.new DEFAULT_BUFFER_SIZE).write (f 0 DEFAULT_BUFFER_SIZE).2)
        (f 0 DEFAULT_BUFFER_SIZE).1 u p ValidationResult.mk_valid,
       [DEFAULT_BUFFER_SIZE]) := by
  unfold call_ffi_with_retry
  simp [Buf.new, Buf.write, h]

theorem call_ffi_with_retry_two_small (f : FfiFn)
    (u : List Nat → Except String String)
    (p : String → Except String ValidationResult) (le : Option String)
    (h1 : is_buffer_too_small (f 0 DEFAULT_BUFFER_SIZE).1 = true)
    (h2 : is_buffer_too_small (f 1 (DEFAULT_BUFFER_SIZE * 2)).1 = true) :
    call_ffi_with_retry f u p le =
      (CallResult.err (Error.BufferTooSmall 0 (DEFAULT_BUFFER_SIZE * 2)),
       [DEFAULT_BUFFER_SIZE, DEFAULT_BUFFER_SIZE * 2]) := by
  unfold call_ffi_with_retry
  simp [Buf.new, Buf.write, Buf.resize, h1, h2]
  decide

theorem call_ffi_with_retry_retry_ok (f : FfiFn)
    (u : List Nat → Except String String)
    (p : String → Except String ValidationResult) (le : Option String)
    (h1 : is_buffer_too_small (f 0 DEFAULT_BUFFER_SIZE).1 = true)
    (h2 : is_buffer_too_small (f 1 (DEFAULT_BUFFER_SIZE * 2)).1 = false) :
    call_ffi_with_retry f u p le =
      (finish_call le
        ((((Buf.new DEFAULT_BUFFER_SIZE).write (f 0 DEFAULT_BUFFER_SIZE).2).resize
            (DEFAULT_BUFFER_SIZE * 2)).write (f 1 (DEFAULT_BUFFER_SIZE * 2)).2)
        (f 1 (DEFAULT_BUFFER_SIZE * 2)).1 u p ValidationResult.mk_valid,
       [DEFAULT_BUFFER_SIZE, DEFAULT_BUFFER_SIZE * 2]) := by
  unfold call_ffi_with_retry
  simp [Buf.new, Buf.write, Buf.resize, h1, h2]
  decide

theorem call_ffi_json_first_ok {α : Type} (f : FfiFn)
    (u : List Nat → Except String String)
    (p : String → Except String α) (le : Option String) (d : α)
    (h : is_buffer_too_small (f 0 DEFAULT_BUFFER_SIZE).1 = false) :
    call_ffi_json f u p le d =
      (finish_call le ((Buf.new DEFAULT_BUFFER_SIZE).write (f 0 DEFAULT_BUFFER_SIZE).2)
        (f 0 DEFAULT_BUFFER_SIZE).1 u p d,
       [DEFAULT_BUFFER_SIZE]) := by
  unfold call_ffi_json
  simp [Buf.new, Buf.write, h]

theorem call_ffi_json_two_small {α : Type} (f : FfiFn)
    (u : List Nat → Except String String)
    (p : String → Except String α) (le : Option String) (d : α)
    (h1 : is_buffer_too_small (f 0 DEFAULT_BUFFER_SIZE).1 = true)
    (h2 : is_buffer_too_small (f 1 (DEFAULT_BUFFER_SIZE * 2)).1 = true) :
    call_ffi_json f u p le d =
      (CallResult.err (Error.BufferTooSmall 0 (DEFAULT_BUFFER_SIZE * 2)),
       [DEFAULT_BUFFER_SIZE, DEFAULT_BUFFER_SIZE * 2]) := by
  unfold call_ffi_json
  simp [Buf.new, Buf.write, Buf.resize, h1, h2]
  decide

theorem call_ffi_json_retry_ok {α : Type} (f : FfiFn)
    (u : List Nat → Except String String)
    (p : String → Except String α) (le : Option String) (d : α)
    (h1 : is_buffer_too_small (f 0 DEFAULT_BUFFER_SIZE).1 = true)
    (h2 : is_buffer_too_small (f 1 (DEFAULT_BUFFER_SIZE * 2)).1 = false) :
    call_ffi_json f u p le d =
      (finish_call le
        ((((Buf.new DEFAULT_BUFFER_SIZE).write (f 0 DEFAULT_BUFFER_SIZE).2).resize
            (DEFAULT_BUFFER_SIZE * 2)).write (f 1 (DEFAULT_BUFFER_SIZE * 2)).2)
        (f 1 (DEFAULT_BUFFER_SIZE * 2)).1 u p d,
       [DEFAULT_BUFFER_SIZE, DEFAULT_BUFFER_SIZE * 2]) := by
  unfold call_ffi_json
  simp [Buf.new, Buf.write, Buf.resize, h1, h2]
  decide

theorem finish_call_ne_buffer_too_small {α : Type} (le : Option String)
    (buf : Buf) (r : Int) (u : List Nat → Except String String)
    (p : String → Except String α) (e : α) (n a : Nat) :
    finish_call le buf r u p e ≠ CallResult.err (Error.BufferTooSmall n a) := by
  unfold finish_call Error.from_native_code
  split
  · simp
  · split
    · simp
    · split
      · split <;> try simp
        split <;> simp
      · simp

/-- C1: with a simulated native function that always signals
buffer-too-small (`-1`), both protocol functions invoke the native
function exactly twice — first at the default capacity (64 KiB), then at
double that capacity — and then fail with `Error::BufferTooSmall` whose
`available` field is the doubled size (doubling the default never exceeds
the 4 MiB maximum, see `double_le_max`); the two-entry capacity trace
shows no third call is attempted. -/
theorem retry_protocol_attempts_exactly_twice
    (f : FfiFn) (u : List Nat → Except String String)
    (p : String → Except String ValidationResult)
    (pc : String → Except String CompletionResult)
    (le : Option String) (d : CompletionResult)
    (h : ∀ i cap, (f i cap).1 = BUFFER_TOO_SMALL) :
    call_ffi_with_retry f u p le
      = (CallResult.err (Error.BufferTooSmall 0 (DEFAULT_BUFFER_SIZE * 2)),
         [DEFAULT_BUFFER_SIZE, DEFAULT_BUFFER_SIZE * 2])
    ∧ call_ffi_json f u pc le d
      = (CallResult.err (Error.BufferTooSmall 0 (DEFAULT_BUFFER_SIZE * 2)),
         [DEFAULT_BUFFER_SIZE, DEFAULT_BUFFER_SIZE * 2]) := by
  have h0 : is_buffer_too_small (f 0 DEFAULT_BUFFER_SIZE).1 = true := by
    simp [is_buffer_too_small, h]
  have h1 : is_buffer_too_small (f 1 (DEFAULT_BUFFER_SIZE * 2)).1 = true := by
    simp [is_buffer_too_small, h]
  exact ⟨call_ffi_with_retry_two_small f u p le h0 h1,
         call_ffi_json_two_small f u pc le d h0 h1⟩

/-- Witness for C1 at a concrete always-(-1) native function. -/
theorem retry_protocol_attempts_exactly_twice_witness :
    call_ffi_with_retry (fun _ _ => (BUFFER_TOO_SMALL, []))
        (fun _ => Except.error "") (fun _ => Except.error "") none
      = (CallResult.err (Error.BufferTooSmall 0 (DEFAULT_BUFFER_SIZE * 2)),
         [DEFAULT_BUFFER_SIZE, DEFAULT_BUFFER_SIZE * 2])
    ∧ call_ffi_json (fun _ _ => (BUFFER_TOO_SMALL, []))
        (fun _ => Except.error "") (fun _ => Except.error "") none CompletionResult.default
      = (CallResult.err (Error.BufferTooSmall 0 (DEFAULT_BUFFER_SIZE * 2)),
         [DEFAULT_BUFFER_SIZE, DEFAULT_BUFFER_SIZE * 2]) :=
  retry_protocol_attempts_exactly_twice _ _ _ _ _ _ (fun _ _ => rfl)

/-- C5: with a simulated native function that always returns a negative
code other than the buffer-too-small sentinel, both protocol functions
return a structured `NativeError` carrying that numeric code and a message
built from the best-effort-fetched last-error context and the fixed
human-readable reason; the reasons for the known sentinel codes `-2` and
`-3` are the parse-error and internal-error messages. -/
theorem negative_code_translated_to_native_error
    (f : FfiFn) (u : List Nat → Except String String)
    (p : String → Except String ValidationResult)
    (pc : String → Except String CompletionResult)
    (le : Option String) (d : CompletionResult) (c : Int)
    (hneg : c < 0) (hnb : c ≠ BUFFER_TOO_SMALL)
    (h : ∀ i cap, (f i cap).1 = c) :
    call_ffi_with_retry f u p le
      = (CallResult.err (Error.NativeError c
          ((le.getD "") ++ ": " ++ native_code_reason c)), [DEFAULT_BUFFER_SIZE])
    ∧ call_ffi_json f u pc le d
      = (CallResult.err (Error.NativeError c
          ((le.getD "") ++ ": " ++ native_code_reason c)), [DEFAULT_BUFFER_SIZE])
    ∧ native_code_reason (-2) = "Parse error in input"
    ∧ native_code_reason (-3) = "Internal error" := by
  have h0 : is_buffer_too_small (f 0 DEFAULT_BUFFER_SIZE).1 = false := by
    simp [is_buffer_too_small, h, BUFFER_TOO_SMALL]
    exact fun hc => hnb (by simp [BUFFER_TOO_SMALL, hc])
  have hs : is_success c = false := by
    simp [is_success]
    omega
  have hfin : ∀ (buf : Buf),
      finish_call le buf c u p ValidationResult.mk_valid
        = CallResult.err (Error.NativeError c
            ((le.getD "") ++ ": " ++ native_code_reason c)) := by
    intro buf
    unfold finish_call
    simp [hs, Error.from_native_code]
  have hfin' : ∀ (buf : Buf),
      finish_call le buf c u pc d
        = CallResult.err (Error.NativeError c
            ((le.getD "") ++ ": " ++ native_code_reason c)) := by
    intro buf
    unfold finish_call
    simp [hs, Error.from_native_code]
  refine ⟨?_, ?_, rfl, rfl⟩
  · rw [call_ffi_with_retry_first_ok f u p le h0, h 0 DEFAULT_BUFFER_SIZE, hfin]
  · rw [call_ffi_json_first_ok f u pc le d h0, h 0 DEFAULT_BUFFER_SIZE, hfin']

/-- Witness for C5 at the concrete code `-2`: the protocol surfaces a
native error carrying code `-2` and a parse-error-oriented message. -/
theorem negative_code_translated_to_native_error_witness :
    call_ffi_with_retry (fun _ _ => ((-2 : Int), []))
        (fun _ => Except.error "") (fun _ => Except.error "") (some "native context")
      = (CallResult.err (Error.NativeError (-2) "native context: Parse error in input"),
         [DEFAULT_BUFFER_SIZE])
    ∧ call_ffi_json (fun _ _ => ((-2 : Int), []))
        (fun _ => Except.error "") (fun _ => Except.error "") (some "native context")
        CompletionResult.default
      = (CallResult.err (Error.NativeError (-2) "native context: Parse error in input"),
         [DEFAULT_BUFFER_SIZE])
    ∧ native_code_reason (-2) = "Parse error in input"
    ∧ native_code_reason (-3) = "Internal error" :=
  negative_code_translated_to_native_error _ _ _ _ _ _ (-2)
    (by decide) (by decide) (fun _ _ => rfl)

/-- C10: for every simulated native function, the protocol passes output
buffers of capacity exactly 64 KiB or exactly 128 KiB (one doubling), so
no buffer larger than 128 KiB is ever allocated; and every
`BufferTooSmall` failure the protocol returns reports `available` equal
to the doubled size — never the 4 MiB maximum, whose branch is
unreachable because one doubling of the default cannot exceed it
(`double_le_max`). -/
theorem protocol_buffer_capacities_bounded
    (f : FfiFn) (u : List Nat → Except String String)
    (p : String → Except String ValidationResult)
    (pc : String → Except String CompletionResult)
    (le : Option String) (d : CompletionResult) :
    ((call_ffi_with_retry f u p le).2 = [DEFAULT_BUFFER_SIZE]
      ∨ (call_ffi_with_retry f u p le).2 = [DEFAULT_BUFFER_SIZE, DEFAULT_BUFFER_SIZE * 2])
    ∧ (match (call_ffi_with_retry f u p le).1 with
       | CallResult.err (Error.BufferTooSmall _ avail) => avail = DEFAULT_BUFFER_SIZE * 2
       | _ => True)
    ∧ ((call_ffi_json f u pc le d).2 = [DEFAULT_BUFFER_SIZE]
      ∨ (call_ffi_json f u pc le d).2 = [DEFAULT_BUFFER_SIZE, DEFAULT_BUFFER_SIZE * 2])
    ∧ (match (call_ffi_json f u pc le d).1 with
       | CallResult.err (Error.BufferTooSmall _ avail) => avail = DEFAULT_BUFFER_SIZE * 2
       | _ => True)
    ∧ DEFAULT_BUFFER_SIZE * 2 ≤ MAX_BUFFER_SIZE := by
  have key : ∀ (res : CallResult ValidationResult),
      (∀ n a, res = CallResult.err (Error.BufferTooSmall n a) → a = DEFAULT_BUFFER_SIZE * 2) →
      (match res with
       | CallResult.err (Error.BufferTooSmall _ avail) => avail = DEFAULT_BUFFER_SIZE * 2
       | _ => True) := by
    intro res hres
    match res with
    | CallResult.ok _ => trivial
    | CallResult.panicked _ => trivial
    | CallResult.err (Error.BufferTooSmall n a) => exact hres n a rfl
    | CallResult.err (Error.LibraryNotFound _) => trivial
    | CallResult.err (Error.LibraryLoadFailed _ _) => trivial
    | CallResult.err (Error.SymbolNotFound _) => trivial
    | CallResult.err (Error.InitializationFailed _) => trivial
    | CallResult.err (Error.NativeError _ _) => trivial
    | CallResult.err (Error.Json _) => trivial
    | CallResult.err (Error.Utf8 _) => trivial
    | CallResult.err (Error.NotInitialized) => trivial
    | CallResult.err (Error.Internal _) => trivial
  have keyc : ∀ (res : CallResult CompletionResult),
      (∀ n a, res = CallResult.err (Error.BufferTooSmall n a) → a = DEFAULT_BUFFER_SIZE * 2) →
      (match res with
       | CallResult.err (Error.BufferTooSmall _ avail) => avail = DEFAULT_BUFFER_SIZE * 2
       | _ => True) := by
    intro res hres
    match res with
    | CallResult.ok _ => trivial
    | CallResult.panicked _ => trivial
    | CallResult.err (Error.BufferTooSmall n a) => exact hres n a rfl
    | CallResult.err (Error.LibraryNotFound _) => trivial
    | CallResult.err (Error.LibraryLoadFailed _ _) => trivial
    | CallResult.err (Error.SymbolNotFound _) => trivial
    | CallResult.err (Error.InitializationFailed _) => trivial
    | CallResult.err (Error.NativeError _ _) => trivial
    | CallResult.err (Error.Json _) => trivial
    | CallResult.err (Error.Utf8 _) => trivial
    | CallResult.err (Error.NotInitialized) => trivial
    | CallResult.err (Error.Internal _) => trivial
  by_cases hb0 : is_buffer_too_small (f 0 DEFAULT_BUFFER_SIZE).1 = true
  · by_cases hb1 : is_buffer_too_small (f 1 (DEFAULT_BUFFER_SIZE * 2)).1 = true
    · rw [call_ffi_with_retry_two_small f u p le hb0 hb1,
        call_ffi_json_two_small f u pc le d hb0 hb1]
      refine ⟨Or.inr rfl, ?_, Or.inr rfl, ?_, double_le_max⟩ <;> simp
    · rw [call_ffi_with_retry_retry_ok f u p le hb0 (by simpa using hb1),
        call_ffi_json_retry_ok f u pc le d hb0 (by simpa using hb1)]
      refine ⟨Or.inr rfl, key _ ?_, Or.inr rfl, keyc _ ?_, double_le_max⟩
      · intro n a hcontra
        exact absurd hcontra (finish_call_ne_buffer_too_small _ _ _ _ _ _ n a)
      · intro n a hcontra
        exact absurd hcontra (finish_call_ne_buffer_too_small _ _ _ _ _ _ n a)
  · rw [call_ffi_with_retry_first_ok f u p le (by simpa using hb0),
      call_ffi_json_first_ok f u pc le d (by simpa using hb0)]
    refine ⟨Or.inl rfl, key _ ?_, Or.inl rfl, keyc _ ?_, double_le_max⟩
    · intro n a hcontra
      exact absurd hcontra (finish_call_ne_buffer_too_small _ _ _ _ _ _ n a)
    · intro n a hcontra
      exact absurd hcontra (finish_call_ne_buffer_too_small _ _ _ _ _ _ n a)

theorem finish_call_zero {α : Type} (le : Option String) (buf : Buf)
    (u : List Nat → Except String String) (p : String → Except String α) (e : α) :
    finish_call le buf 0 u p e = CallResult.ok e := by
  unfold finish_call
  simp [is_success]

theorem finish_call_pos {α : Type} (le : Option String) (buf : Buf) (r : Int)
    (u : List Nat → Except String String) (p : String → Except String α) (e : α)
    (hr : 0 < r) (hle : r.toNat ≤ buf.cap) :
    finish_call le buf r u p e =
      match u (buf.data.take r.toNat) with
      | Except.error er => CallResult.err (Error.Utf8 er)
      | Except.ok s =>
        match p s with
        | Except.error er => CallResult.err (Error.Json er)
        | Except.ok v => CallResult.ok v := by
  unfold finish_call
  have h1 : is_success r = true := by
    simp [is_success]
    omega
  have h2 : ¬ r = 0 := by omega
  simp [h1, h2, hle]

theorem finish_call_pos_overrun {α : Type} (le : Option String) (buf : Buf) (r : Int)
    (u : List Nat → Except String String) (p : String → Except String α) (e : α)
    (hr : 0 < r) (hgt : buf.cap < r.toNat) :
    finish_call le buf r u p e =
      CallResult.panicked "range end index out of range for slice" := by
  unfold finish_call
  have h1 : is_success r = true := by
    simp [is_success]
    omega
  have h2 : ¬ r = 0 := by omega
  have h3 : ¬ r.toNat ≤ buf.cap := by omega
  simp [h1, h2, h3]

/-- C4 (amended): when the first native call returns `r = 0`, both
protocol functions return the empty/default value
(`ValidationResult::valid()` respectively `T::default()`) for every
UTF-8 decoder and JSON parser — no decoding is attempted; when it
returns `r > 0` with `r` within the buffer's length, exactly the first
`r` bytes of the (written) buffer are decoded as UTF-8 and parsed as
JSON, a UTF-8 failure surfacing as the terminal `Error::Utf8` and a JSON
failure as the terminal `Error::Json`, never silently recovered; but
when `r` exceeds the buffer's length, the slice `&buffer[..r]` panics
instead of returning an error (see the counterexample). -/
theorem positive_result_decodes_exact_slice
    (f : FfiFn) (u : List Nat → Except String String)
    (p : String → Except String ValidationResult)
    (pc : String → Except String CompletionResult)
    (le : Option String) (d : CompletionResult) (r : Int) (w : List Nat)
    (hf : f 0 DEFAULT_BUFFER_SIZE = (r, w)) :
    (r = 0 →
      call_ffi_with_retry f u p le
        = (CallResult.ok ValidationResult.mk_valid, [DEFAULT_BUFFER_SIZE])
      ∧ call_ffi_json f u pc le d = (CallResult.ok d, [DEFAULT_BUFFER_SIZE]))
    ∧ (0 < r → r.toNat ≤ DEFAULT_BUFFER_SIZE →
        (∀ e, u (((Buf.new DEFAULT_BUFFER_SIZE).write w).data.take r.toNat) = Except.error e →
          (call_ffi_with_retry f u p le).1 = CallResult.err (Error.Utf8 e)
          ∧ (call_ffi_json f u pc le d).1 = CallResult.err (Error.Utf8 e))
        ∧ (∀ s e, u (((Buf.new DEFAULT_BUFFER_SIZE).write w).data.take r.toNat) = Except.ok s →
            p s = Except.error e →
            (call_ffi_with_retry f u p le).1 = CallResult.err (Error.Json e))
        ∧ (∀ s e, u (((Buf.new DEFAULT_BUFFER_SIZE).write w).data.take r.toNat) = Except.ok s →
            pc s = Except.error e →
            (call_ffi_json f u pc le d).1 = CallResult.err (Error.Json e))
        ∧ (∀ s v, u (((Buf.new DEFAULT_BUFFER_SIZE).write w).data.take r.toNat) = Except.ok s →
            p s = Except.ok v →
            (call_ffi_with_retry f u p le).1 = CallResult.ok v)
        ∧ (∀ s v, u (((Buf.new DEFAULT_BUFFER_SIZE).write w).data.take r.toNat) = Except.ok s →
            pc s = Except.ok v →
            (call_ffi_json f u pc le d).1 = CallResult.ok v))
    ∧ (0 < r → DEFAULT_BUFFER_SIZE < r.toNat →
        (call_ffi_with_retry f u p le).1
          = CallResult.panicked "range end index out of range for slice"
        ∧ (call_ffi_json f u pc le d).1
          = CallResult.panicked "range end index out of range for slice") := by
  refine ⟨?_, ?_, ?_⟩
  · intro hr0
    subst hr0
    have hb0 : is_buffer_too_small (f 0 DEFAULT_BUFFER_SIZE).1 = false := by
      rw [hf]
      rfl
    rw [call_ffi_with_retry_first_ok f u p le hb0,
      call_ffi_json_first_ok f u pc le d hb0, hf]
    exact ⟨by rw [finish_call_zero], by rw [finish_call_zero]⟩
  · intro hr hle
    have hb0 : is_buffer_too_small (f 0 DEFAULT_BUFFER_SIZE).1 = false := by
      rw [hf]
      simp [is_buffer_too_small, BUFFER_TOO_SMALL]
      omega
    have hcap : ((Buf.new DEFAULT_BUFFER_SIZE).write w).cap = DEFAULT_BUFFER_SIZE := by
      simp [Buf.new, Buf.write]
    rw [call_ffi_with_retry_first_ok f u p le hb0,
      call_ffi_json_first_ok f u pc le d hb0, hf]
    have hfin := finish_call_pos le ((Buf.new DEFAULT_BUFFER_SIZE).write w) r u p
      ValidationResult.mk_valid hr (by rw [hcap]; exact hle)
    have hfinc := finish_call_pos le ((Buf.new DEFAULT_BUFFER_SIZE).write w) r u pc
      d hr (by rw [hcap]; exact hle)
    refine ⟨?_, ?_, ?_, ?_, ?_⟩
    · intro e he
      rw [hfin, hfinc, he]
      exact ⟨rfl, rfl⟩
    · intro s e hs hp
      rw [hfin, hs]
      simp [hp]
    · intro s e hs hp
      rw [hfinc, hs]
      simp [hp]
    · intro s v hs hp
      rw [hfin, hs]
      simp [hp]
    · intro s v hs hp
      rw [hfinc, hs]
      simp [hp]
  · intro hr hgt
    have hb0 : is_buffer_too_small (f 0 DEFAULT_BUFFER_SIZE).1 = false := by
      rw [hf]
      simp [is_buffer_too_small, BUFFER_TOO_SMALL]
      omega
    have hcap : ((Buf.new DEFAULT_BUFFER_SIZE).write w).cap = DEFAULT_BUFFER_SIZE := by
      simp [Buf.new, Buf.write]
    rw [call_ffi_with_retry_first_ok f u p le hb0,
      call_ffi_json_first_ok f u pc le d hb0, hf]
    constructor
    · rw [finish_call_pos_overrun le _ r u p ValidationResult.mk_valid hr (by rw [hcap]; exact hgt)]
    · rw [finish_call_pos_overrun le _ r u pc d hr (by rw [hcap]; exact hgt)]

/-- Counterexample to C4 as stated: a simulated native function whose
first call returns the positive code 70000 (larger than the 64 KiB
buffer it was handed). The protocol does not decode 70000 bytes and does
not return a terminal error — the slice of the buffer panics. -/
theorem positive_result_decodes_exact_slice_counterexample :
    call_ffi_with_retry (fun _ _ => ((70000 : Int), []))
        (fun _ => Except.error "") (fun _ => Except.error "") none
      = (CallResult.panicked "range end index out of range for slice", [DEFAULT_BUFFER_SIZE])
    ∧ (0 : Int) < 70000 ∧ DEFAULT_BUFFER_SIZE < (70000 : Int).toNat := by
  refine ⟨?_, by decide, by decide⟩
  rw [call_ffi_with_retry_first_ok _ _ _ _ (by decide)]
  rw [finish_call_pos_overrun _ _ _ _ _ _ (by decide)
    (by rw [show (((Buf.new DEFAULT_BUFFER_SIZE).write
        ((fun _ _ => ((70000 : Int), ([] : List Nat))) 0 DEFAULT_BUFFER_SIZE).2)).cap
        = DEFAULT_BUFFER_SIZE from rfl]; decide)]

/-- Witness for C4's amended theorem: the zero-result case at a concrete
simulated function, and a positive-result case decoding three bytes. -/
theorem positive_result_decodes_exact_slice_witness :
    (call_ffi_with_retry (fun _ _ => ((0 : Int), []))
        (fun _ => Except.error "") (fun _ => Except.error "") none
      = (CallResult.ok ValidationResult.mk_valid, [DEFAULT_BUFFER_SIZE]))
    ∧ (call_ffi_json (fun _ _ => ((0 : Int), []))
        (fun _ => Except.error "") (fun _ => Except.error "") none CompletionResult.default
      = (CallResult.ok CompletionResult.default, [DEFAULT_BUFFER_SIZE]))
    ∧ ((call_ffi_with_retry (fun _ _ => ((3 : Int), [1, 2, 3]))
        (fun _ => Except.error "bad utf8") (fun _ => Except.error "") none).1
      = CallResult.err (Error.Utf8 "bad utf8")) := by
  refine ⟨?_, ?_, ?_⟩
  · exact ((positive_result_decodes_exact_slice (fun _ _ => ((0 : Int), []))
      (fun _ => Except.error "") (fun _ => Except.error "") (fun _ => Except.error "")
      none CompletionResult.default 0 [] rfl).1 rfl).1
  · exact ((positive_result_decodes_exact_slice (fun _ _ => ((0 : Int), []))
      (fun _ => Except.error "") (fun _ => Except.error "") (fun _ => Except.error "")
      none CompletionResult.default 0 [] rfl).1 rfl).2
  · exact (((positive_result_decodes_exact_slice (fun _ _ => ((3 : Int), [1, 2, 3]))
      (fun _ => Except.error "bad utf8") (fun _ => Except.error "") (fun _ => Except.error "")
      none CompletionResult.default 3 [1, 2, 3] rfl).2.1 (by decide) (by decide)).1
      "bad utf8" rfl).1

/-! ## Resolution claims -/

theorem find_from_exe_trace (env : Env) (acc : List String) :
    ∃ t, (find_from_exe env acc).2 = acc ++ t
      ∧ t.Sublist ((match env.exeDir with
          | some exe_dir => [pjoin exe_dir env.libName]
          | none => []) ++ [pjoin (native_dir env) env.libName, env.libName]) := by
  cases henv : env.exeDir with
  | some d =>
    unfold find_from_exe
    rw [henv]
    by_cases h1 : env.pathExists (pjoin d env.libName) = true
    · refine ⟨[pjoin d env.libName], by simp [h1], ?_⟩
      simp only [henv]
      exact List.Sublist.cons₂ _ (List.nil_sublist _)
    · unfold find_from_native
      by_cases h2 : env.pathExists (pjoin (native_dir env) env.libName) = true
      · refine ⟨[pjoin d env.libName, pjoin (native_dir env) env.libName],
          by simp [h1, h2], ?_⟩
        simp only [henv]
        exact List.Sublist.cons₂ _ (List.Sublist.cons₂ _ (List.nil_sublist _))
      · unfold find_from_cwd
        by_cases h3 : env.pathExists env.libName = true
        · refine ⟨[pjoin d env.libName, pjoin (native_dir env) env.libName, env.libName],
            by simp [h1, h2, h3], ?_⟩
          simp only [henv]
          exact List.Sublist.refl _
        · refine ⟨[pjoin d env.libName, pjoin (native_dir env) env.libName, env.libName],
            by simp [h1, h2, h3], ?_⟩
          simp only [henv]
          exact List.Sublist.refl _
  | none =>
    unfold find_from_exe
    rw [henv]
    unfold find_from_native
    by_cases h2 : env.pathExists (pjoin (native_dir env) env.libName) = true
    · refine ⟨[pjoin (native_dir env) env.libName], by simp [h2], ?_⟩
      simp only [henv]
      exact List.Sublist.cons₂ _ (List.nil_sublist _)
    · unfold find_from_cwd
      by_cases h3 : env.pathExists env.libName = true
      · refine ⟨[pjoin (native_dir env) env.libName, env.libName], by simp [h2, h3], ?_⟩
        simp only [henv]
        exact List.Sublist.refl _
      · refine ⟨[pjoin (native_dir env) env.libName, env.libName], by simp [h2, h3], ?_⟩
        simp only [henv]
        exact List.Sublist.refl _

/-- C7 (amended): in every environment state, `searched_paths()` is
non-empty and contains — in the same order, as a sublist — every path
`find_library_path()` actually probed. The containment is not strict in
every state: when no candidate exists the probed list equals the
searched list (see the counterexample). -/
theorem searched_paths_contains_probed_paths (env : Env) :
    searched_paths env ≠ []
    ∧ ((find_library_path env).2).Sublist (searched_paths env) := by
  constructor
  · unfold searched_paths
    cases env.envVar <;> cases env.exeDir <;> simp
  · unfold find_library_path searched_paths
    cases henv : env.envVar with
    | none =>
      obtain ⟨t, ht, hs⟩ := find_from_exe_trace env []
      rw [ht]
      simpa using hs
    | some p =>
      by_cases h1 : env.isFile p = true
      · simp only [h1, if_true]
        exact List.Sublist.cons₂ _ (List.nil_sublist _)
      · by_cases h2 : env.isDir p = true
        · by_cases h3 : env.pathExists (pjoin p env.libName) = true
          · simp only [h1, h2, h3, if_true, if_false, Bool.false_eq_true]
            exact List.Sublist.cons₂ _ (List.Sublist.cons₂ _ (List.nil_sublist _))
          · obtain ⟨t, ht, hs⟩ := find_from_exe_trace env [p, pjoin p env.libName]
            simp only [h1, h2, h3, if_true, if_false, Bool.false_eq_true]
            rw [ht]
            simpa using hs
        · obtain ⟨t, ht, hs⟩ := find_from_exe_trace env [p]
          simp only [h1, h2, if_false, Bool.false_eq_true]
          rw [ht]
          simp only [List.cons_append, List.nil_append, List.append_assoc]
          exact List.Sublist.cons₂ _ (List.Sublist.cons _ (by simpa using hs))

/-- The environment of the C7 counterexample: no override variable, no
executable directory, an empty filesystem. -/
def c7_env : Env :=
  { envVar := none, exeDir := none, isFile := fun _ => false,
    isDir := fun _ => false, pathExists := fun _ => false,
    libName := "KqlLanguageFfiNE.so", manifestDir := "/crate", rid := "linux-x64" }

/-- Counterexample to C7 as stated: in `c7_env`, `find_library_path`
probes exactly the paths `searched_paths` returns — the searched list is
a superset of the probed paths but not a strict one. -/
theorem searched_paths_not_strict_counterexample :
    (find_library_path c7_env).2 = searched_paths c7_env
    ∧ searched_paths c7_env
        = ["/crate/dotnet/native/linux-x64/KqlLanguageFfiNE.so", "KqlLanguageFfiNE.so"] := by
  constructor <;> rfl

/-- C8: when the override environment variable names an existing file,
resolution returns exactly that path having probed nothing else (the
probe trace is `[p]`: neither the executable-adjacent directory, nor the
development-tree location, nor the current working directory is
consulted); when it names an existing directory that contains the
platform library filename, resolution returns that directory joined with
the filename. -/
theorem override_variable_resolution (env : Env) (p : String)
    (h1 : env.envVar = some p) :
    (env.isFile p = true → find_library_path env = (some p, [p]))
    ∧ (env.isFile p = false → env.isDir p = true →
        env.pathExists (pjoin p env.libName) = true →
        find_library_path env = (some (pjoin p env.libName), [p, pjoin p env.libName])) := by
  unfold find_library_path
  rw [h1]
  constructor
  · intro hf
    simp [hf]
  · intro hf hd he
    simp [hf, hd, he]

/-- The environment of the C8 witness: the override variable names an
existing file. -/
def c8_env : Env :=
  { envVar := some "/opt/kql/KqlLanguageFfiNE.so", exeDir := some "/usr/bin",
    isFile := fun s => s == "/opt/kql/KqlLanguageFfiNE.so",
    isDir := fun _ => false, pathExists := fun _ => true,
    libName := "KqlLanguageFfiNE.so", manifestDir := "/crate", rid := "linux-x64" }

/-- Witness for C8 at `c8_env`: the override file is returned directly
and is the only path probed. -/
theorem override_variable_resolution_witness :
    find_library_path c8_env
      = (some "/opt/kql/KqlLanguageFfiNE.so", ["/opt/kql/KqlLanguageFfiNE.so"]) :=
  (override_variable_resolution c8_env "/opt/kql/KqlLanguageFfiNE.so" rfl).1 rfl

/-! ## Lifecycle claims -/

/-- C2 (amended): the cleanup entry point is invoked only on the
failed-initialization path — precisely when `kql_init` was invoked and
returned non-zero, in which case the partially loaded library is dropped
and `kql_cleanup` runs exactly once, after `kql_init` and the best-effort
`kql_get_last_error` fetch, while `load_library` returns
`InitializationFailed`. On every other path of the load sequence no
cleanup call occurs. -/
theorem cleanup_runs_exactly_on_failed_init (w : LoadWorld)
    (h : NativeEvent.cleanupCall ∈ (load_library_once w).2) :
    (load_library_once w).2
      = [NativeEvent.initCall, NativeEvent.getLastErrorCall, NativeEvent.cleanupCall]
    ∧ ∃ m, (load_library_once w).1 = Except.error (Error.InitializationFailed m) := by
  cases hf : (find_library_path w.env).1 with
  | none =>
    have heq : load_library_once w
        = (Except.error (Error.LibraryNotFound (searched_paths w.env)), []) := by
      unfold load_library_once
      simp only [hf]
    rw [heq] at h
    simp at h
  | some path =>
    cases hl : load_from w path with
    | error e =>
      have heq : load_library_once w = (Except.error e, []) := by
        unfold load_library_once
        simp only [hf, hl]
      rw [heq] at h
      simp at h
    | ok lib =>
      by_cases hi : w.initResult = 0
      · have heq : load_library_once w = (Except.ok lib, [NativeEvent.initCall]) := by
          unfold load_library_once
          simp only [hf, hl]
          rw [if_neg (by simp [hi])]
        rw [heq] at h
        simp at h
      · have heq : load_library_once w =
            (Except.error (Error.InitializationFailed
              (if w.lastErrorResult > 0 then w.lastErrorMsg
               else "Initialization returned error code: " ++ toString w.initResult)),
             [NativeEvent.initCall, NativeEvent.getLastErrorCall, NativeEvent.cleanupCall]) := by
          unfold load_library_once
          simp only [hf, hl]
          rw [if_pos hi]
        rw [heq]
        exact ⟨rfl, _, rfl⟩

/-- The environment of the C2 world: the override variable names a file
that exists, so resolution succeeds immediately. -/
def c2_env : Env :=
  { envVar := some "/opt/kql/KqlLanguageFfiNE.so", exeDir := none,
    isFile := fun _ => true, isDir := fun _ => false, pathExists := fun _ => false,
    libName := "KqlLanguageFfiNE.so", manifestDir := "/crate", rid := "linux-x64" }

/-- The C2 world: the library opens, every symbol binds, but `kql_init`
returns 1 and `kql_get_last_error` has no message. -/
def c2_world : LoadWorld :=
  { env := c2_env, openOk := true, loadErrMsg := "",
    hasSymbol := fun _ => true,
    validateSyntaxFn := fun _ _ => (0, []),
    validateWithSchemaFn := fun _ _ => (0, []),
    getCompletionsFn := fun _ _ => (0, []),
    getClassificationsFn := fun _ _ => (0, []),
    initResult := 1, lastErrorResult := 0, lastErrorMsg := "" }

/-- Counterexample to C2 as stated: in `c2_world`, `kql_init` returns 1,
the load sequence returns `InitializationFailed` — and `kql_cleanup` IS
invoked (the partially loaded `LoadedLibrary` is dropped on the error
return, and `Drop for LoadedLibrary` unconditionally calls cleanup). -/
theorem cleanup_called_despite_failed_init_counterexample :
    (load_library_once c2_world).1
      = Except.error (Error.InitializationFailed "Initialization returned error code: 1")
    ∧ NativeEvent.cleanupCall ∈ (load_library_once c2_world).2 := by
  constructor
  · rfl
  · rw [show (load_library_once c2_world).2
      = [NativeEvent.initCall, NativeEvent.getLastErrorCall, NativeEvent.cleanupCall] from rfl]
    simp

/-- Witness for C2's amended theorem at the concrete world `c2_world`. -/
theorem cleanup_runs_exactly_on_failed_init_witness :
    (load_library_once c2_world).2
      = [NativeEvent.initCall, NativeEvent.getLastErrorCall, NativeEvent.cleanupCall]
    ∧ ∃ m, (load_library_once c2_world).1 = Except.error (Error.InitializationFailed m) :=
  cleanup_runs_exactly_on_failed_init c2_world
    (by rw [show (load_library_once c2_world).2
        = [NativeEvent.initCall, NativeEvent.getLastErrorCall, NativeEvent.cleanupCall] from rfl]
        simp)

/-- C9: for every successfully bound library, each capability predicate
reports exactly whether the corresponding optional entry point was bound
at load time; and invoking an operation whose optional entry point was
never bound returns an `Error::Internal` immediately, with no native
call (empty call trace). The handle itself is immutable — a failed
capability check changes nothing — so it stays usable for the other
operations. -/
theorem capability_predicates_match_bound_symbols (w : LoadWorld) (path : String)
    (lib : LoadedLibrary) (h : load_from w path = Except.ok lib) :
    (lib.supports_schema_validation = w.hasSymbol "kql_validate_with_schema"
     ∧ lib.supports_completion = w.hasSymbol "kql_get_completions"
     ∧ lib.supports_classification = w.hasSymbol "kql_get_classifications")
    ∧ (∀ q s u p le, lib.supports_schema_validation = false →
        validate_with_schema lib q s u p le
          = (CallResult.err
              (Error.Internal "Schema validation not supported by loaded library"), []))
    ∧ (∀ q c sj u p le, lib.supports_completion = false →
        get_completions lib q c sj u p le
          = (CallResult.err (Error.Internal "Completion not supported by loaded library"), []))
    ∧ (∀ q u p le, lib.supports_classification = false →
        get_classifications lib q u p le
          = (CallResult.err (Error.Internal "Classification not supported by loaded library"), [])) := by
  refine ⟨?_, ?_, ?_, ?_⟩
  · unfold load_from at h
    split at h
    · simp at h
    · split at h
      · simp at h
      · split at h
        · simp at h
        · split at h
          · simp at h
          · split at h
            · simp at h
            · injection h with h
              subst h
              refine ⟨?_, ?_, ?_⟩
              · cases hs : w.hasSymbol "kql_validate_with_schema" <;>
                  simp [LoadedLibrary.supports_schema_validation, hs]
              · cases hs : w.hasSymbol "kql_get_completions" <;>
                  simp [LoadedLibrary.supports_completion, hs]
              · cases hs : w.hasSymbol "kql_get_classifications" <;>
                  simp [LoadedLibrary.supports_classification, hs]
  · intro q s u p le hfalse
    cases hx : lib.validate_with_schema with
    | none => simp [validate_with_schema, hx]
    | some f =>
      rw [LoadedLibrary.supports_schema_validation, hx] at hfalse
      simp at hfalse
  · intro q c sj u p le hfalse
    cases hx : lib.get_completions with
    | none => simp [get_completions, hx]
    | some f =>
      rw [LoadedLibrary.supports_completion, hx] at hfalse
      simp at hfalse
  · intro q u p le hfalse
    cases hx : lib.get_classifications with
    | none => simp [get_classifications, hx]
    | some f =>
      rw [LoadedLibrary.supports_classification, hx] at hfalse
      simp at hfalse

/-- The C9 world: only the four required symbols exist in the library. -/
def c9_world : LoadWorld :=
  { env :=
      { envVar := none, exeDir := none, isFile := fun _ => false,
        isDir := fun _ => false, pathExists := fun _ => false,
        libName := "KqlLanguageFfiNE.so", manifestDir := "/crate", rid := "linux-x64" },
    openOk := true, loadErrMsg := "",
    hasSymbol := fun s =>
      s == "kql_init" || s == "kql_cleanup"
        || s == "kql_validate_syntax" || s == "kql_get_last_error",
    validateSyntaxFn := fun _ _ => (0, []),
    validateWithSchemaFn := fun _ _ => (0, []),
    getCompletionsFn := fun _ _ => (0, []),
    getClassificationsFn := fun _ _ => (0, []),
    initResult := 0, lastErrorResult := 0, lastErrorMsg := "" }

/-- The library `load_from` binds in `c9_world`: no optional entry point. -/
def c9_lib : LoadedLibrary :=
  { validate_syntax_op := fun _ _ => (0, []),
    validate_with_schema := none, get_completions := none, get_classifications := none }

/-- Witness for C9 at the concrete world `c9_world`: all three capability
predicates report false, matching the absent optional symbols, and the
three gated operations fail with no native call. -/
theorem capability_predicates_match_bound_symbols_witness :
    (c9_lib.supports_schema_validation = c9_world.hasSymbol "kql_validate_with_schema"
     ∧ c9_lib.supports_completion = c9_world.hasSymbol "kql_get_completions"
     ∧ c9_lib.supports_classification = c9_world.hasSymbol "kql_get_classifications")
    ∧ validate_with_schema c9_lib [] [] (fun _ => Except.error "")
        (fun _ => Except.error "") none
      = (CallResult.err
          (Error.Internal "Schema validation not supported by loaded library"), [])
    ∧ get_completions c9_lib [] 0 none (fun _ => Except.error "")
        (fun _ => Except.error "") none
      = (CallResult.err (Error.Internal "Completion not supported by loaded library"), [])
    ∧ get_classifications c9_lib [] (fun _ => Except.error "")
        (fun _ => Except.error "") none
      = (CallResult.err (Error.Internal "Classification not supported by loaded library"), []) := by
  have h := capability_predicates_match_bound_symbols c9_world "/p" c9_lib rfl
  exact ⟨h.1, h.2.1 [] [] _ _ none rfl, h.2.2.1 [] 0 none _ _ none rfl,
    h.2.2.2 [] _ _ none rfl⟩

/-! ## Input-size claims -/

theorem call_ffi_with_retry_trace_cases (f : FfiFn)
    (u : List Nat → Except String String)
    (p : String → Except String ValidationResult) (le : Option String) :
    (call_ffi_with_retry f u p le).2 = [DEFAULT_BUFFER_SIZE]
    ∨ (call_ffi_with_retry f u p le).2 = [DEFAULT_BUFFER_SIZE, DEFAULT_BUFFER_SIZE * 2] := by
  by_cases hb0 : is_buffer_too_small (f 0 DEFAULT_BUFFER_SIZE).1 = true
  · by_cases hb1 : is_buffer_too_small (f 1 (DEFAULT_BUFFER_SIZE * 2)).1 = true
    · rw [call_ffi_with_retry_two_small f u p le hb0 hb1]
      exact Or.inr rfl
    · rw [call_ffi_with_retry_retry_ok f u p le hb0 (by simpa using hb1)]
      exact Or.inr rfl
  · rw [call_ffi_with_retry_first_ok f u p le (by simpa using hb0)]
    exact Or.inl rfl

theorem call_ffi_json_trace_cases {α : Type} (f : FfiFn)
    (u : List Nat → Except String String)
    (p : String → Except String α) (le : Option String) (d : α) :
    (call_ffi_json f u p le d).2 = [DEFAULT_BUFFER_SIZE]
    ∨ (call_ffi_json f u p le d).2 = [DEFAULT_BUFFER_SIZE, DEFAULT_BUFFER_SIZE * 2] := by
  by_cases hb0 : is_buffer_too_small (f 0 DEFAULT_BUFFER_SIZE).1 = true
  · by_cases hb1 : is_buffer_too_small (f 1 (DEFAULT_BUFFER_SIZE * 2)).1 = true
    · rw [call_ffi_json_two_small f u p le d hb0 hb1]
      exact Or.inr rfl
    · rw [call_ffi_json_retry_ok f u p le d hb0 (by simpa using hb1)]
      exact Or.inr rfl
  · rw [call_ffi_json_first_ok f u p le d (by simpa using hb0)]
    exact Or.inl rfl

/-- C6 (amended): the query byte length is checked against `c_int` in all
four operations and the cursor offset in `get_completions`; an oversized
value is rejected with an error and an empty native-call trace — before
any native call. The schema byte length is likewise checked in
`validate_with_schema`. In every native call actually made, the query
length, schema length (`validate_with_schema`) and cursor offset passed
are the checked values, within `c_int`, and the buffer capacity passed is
64 KiB or 128 KiB. In `get_completions`, however, the schema JSON length
is narrowed by the unchecked wrapping cast `castCInt` rather than
checked: an oversized schema is not rejected (see the counterexample). -/
theorem oversized_input_checks (lib : LoadedLibrary) (q s : List Nat)
    (cursor : Nat) (sj : Option (List Nat))
    (u : List Nat → Except String String)
    (p : String → Except String ValidationResult)
    (pcm : String → Except String CompletionResult)
    (pcl : String → Except String ClassificationResult)
    (le : Option String) :
    (cIntMax < q.length →
      validate_syntax_op lib q u p le
        = (CallResult.err (Error.Internal
            ("Query too large: " ++ toString q.length ++ " bytes exceeds c_int max")), [])
      ∧ ((validate_with_schema lib q s u p le).2 = []
         ∧ ∃ m, (validate_with_schema lib q s u p le).1 = CallResult.err (Error.Internal m))
      ∧ ((get_classifications lib q u pcl le).2 = []
         ∧ ∃ m, (get_classifications lib q u pcl le).1 = CallResult.err (Error.Internal m))
      ∧ ((get_completions lib q cursor sj u pcm le).2 = []
         ∧ ∃ m, (get_completions lib q cursor sj u pcm le).1
             = CallResult.err (Error.Internal m)))
    ∧ (cIntMax < s.length →
        (validate_with_schema lib q s u p le).2 = []
        ∧ ∃ m, (validate_with_schema lib q s u p le).1 = CallResult.err (Error.Internal m))
    ∧ (cIntMax < cursor →
        (get_completions lib q cursor sj u pcm le).2 = []
        ∧ ∃ m, (get_completions lib q cursor sj u pcm le).1
            = CallResult.err (Error.Internal m))
    ∧ (∀ call ∈ (validate_syntax_op lib q u p le).2,
        call.queryLen = (q.length : Int) ∧ call.queryLen ≤ (cIntMax : Int)
        ∧ (call.outCap = 65536 ∨ call.outCap = 131072))
    ∧ (∀ call ∈ (validate_with_schema lib q s u p le).2,
        call.queryLen = (q.length : Int) ∧ call.queryLen ≤ (cIntMax : Int)
        ∧ call.schemaLen = some (s.length : Int) ∧ (s.length : Int) ≤ (cIntMax : Int)
        ∧ (call.outCap = 65536 ∨ call.outCap = 131072))
    ∧ (∀ call ∈ (get_classifications lib q u pcl le).2,
        call.queryLen = (q.length : Int) ∧ call.queryLen ≤ (cIntMax : Int)
        ∧ (call.outCap = 65536 ∨ call.outCap = 131072))
    ∧ (∀ call ∈ (get_completions lib q cursor sj u pcm le).2,
        call.queryLen = (q.length : Int) ∧ call.queryLen ≤ (cIntMax : Int)
        ∧ call.cursorPos = some (cursor : Int) ∧ (cursor : Int) ≤ (cIntMax : Int)
        ∧ call.schemaLen
            = some (match sj with | some j => castCInt j.length | none => 0)
        ∧ (call.outCap = 65536 ∨ call.outCap = 131072)) := by
  have hd : castCInt DEFAULT_BUFFER_SIZE = 65536 := by decide
  have hd2 : castCInt (DEFAULT_BUFFER_SIZE * 2) = 131072 := by decide
  refine ⟨?_, ?_, ?_, ?_, ?_, ?_, ?_⟩
  · intro hq
    have hq' : ¬ q.length ≤ cIntMax := by omega
    refine ⟨?_, ?_, ?_, ?_⟩
    · unfold validate_syntax_op
      rw [if_neg hq']
    · unfold validate_with_schema
      cases lib.validate_with_schema with
      | none => exact ⟨rfl, _, rfl⟩
      | some f => exact ⟨by simp [hq'], by simp [hq']⟩
    · unfold get_classifications
      cases lib.get_classifications with
      | none => exact ⟨rfl, _, rfl⟩
      | some f => exact ⟨by simp [hq'], by simp [hq']⟩
    · unfold get_completions
      cases lib.get_completions with
      | none => exact ⟨rfl, _, rfl⟩
      | some f => exact ⟨by simp [hq'], by simp [hq']⟩
  · intro hs
    have hs' : ¬ s.length ≤ cIntMax := by omega
    unfold validate_with_schema
    cases lib.validate_with_schema with
    | none => exact ⟨rfl, _, rfl⟩
    | some f =>
      by_cases hq : q.length ≤ cIntMax
      · exact ⟨by simp [hq, hs'], by simp [hq, hs']⟩
      · exact ⟨by simp [hq], by simp [hq]⟩
  · intro hc
    have hc' : ¬ cursor ≤ cIntMax := by omega
    unfold get_completions
    cases lib.get_completions with
    | none => exact ⟨rfl, _, rfl⟩
    | some f =>
      by_cases hq : q.length ≤ cIntMax
      · exact ⟨by simp [hq, hc'], by simp [hq, hc']⟩
      · exact ⟨by simp [hq], by simp [hq]⟩
  · intro call hcall
    unfold validate_syntax_op at hcall
    by_cases hq : q.length ≤ cIntMax
    · rw [if_pos hq] at hcall
      simp only [List.mem_map] at hcall
      obtain ⟨cap, hmem, rfl⟩ := hcall
      refine ⟨rfl, by simpa using hq, ?_⟩
      rcases call_ffi_with_retry_trace_cases lib.validate_syntax_op u p le with ht | ht <;>
        rw [ht] at hmem <;> simp at hmem
      · rw [hmem, hd]
        exact Or.inl rfl
      · rcases hmem with rfl | rfl
        · rw [hd]
          exact Or.inl rfl
        · rw [hd2]
          exact Or.inr rfl
    · rw [if_neg hq] at hcall
      simp at hcall
  · intro call hcall
    unfold validate_with_schema at hcall
    cases hopt : lib.validate_with_schema with
    | none =>
      rw [hopt] at hcall
      simp at hcall
    | some f =>
      rw [hopt] at hcall
      by_cases hq : q.length ≤ cIntMax
      · by_cases hsc : s.length ≤ cIntMax
        · simp only [hq, hsc, if_true, List.mem_map] at hcall
          obtain ⟨cap, hmem, rfl⟩ := hcall
          refine ⟨rfl, by simpa using hq, rfl, by simpa using hsc, ?_⟩
          rcases call_ffi_with_retry_trace_cases f u p le with ht | ht <;>
            rw [ht] at hmem <;> simp at hmem
          · rw [hmem, hd]
            exact Or.inl rfl
          · rcases hmem with rfl | rfl
            · rw [hd]
              exact Or.inl rfl
            · rw [hd2]
              exact Or.inr rfl
        · simp [hq, hsc] at hcall
      · simp [hq] at hcall
  · intro call hcall
    unfold get_classifications at hcall
    cases hopt : lib.get_classifications with
    | none =>
      rw [hopt] at hcall
      simp at hcall
    | some f =>
      rw [hopt] at hcall
      by_cases hq : q.length ≤ cIntMax
      · simp only [hq, if_true, List.mem_map] at hcall
        obtain ⟨cap, hmem, rfl⟩ := hcall
        refine ⟨rfl, by simpa using hq, ?_⟩
        rcases call_ffi_json_trace_cases f u pcl le ClassificationResult.default with ht | ht <;>
          rw [ht] at hmem <;> simp at hmem
        · rw [hmem, hd]
          exact Or.inl rfl
        · rcases hmem with rfl | rfl
          · rw [hd]
            exact Or.inl rfl
          · rw [hd2]
            exact Or.inr rfl
      · simp [hq] at hcall
  · intro call hcall
    unfold get_completions at hcall
    cases hopt : lib.get_completions with
    | none =>
      rw [hopt] at hcall
      simp at hcall
    | some f =>
      rw [hopt] at hcall
      by_cases hq : q.length ≤ cIntMax
      · by_cases hcu : cursor ≤ cIntMax
        · simp only [hq, hcu, if_true, List.mem_map] at hcall
          obtain ⟨cap, hmem, rfl⟩ := hcall
          refine ⟨rfl, by simpa using hq, rfl, by simpa using hcu, rfl, ?_⟩
          rcases call_ffi_json_trace_cases f u pcm le CompletionResult.default with ht | ht <;>
            rw [ht] at hmem <;> simp at hmem
          · rw [hmem, hd]
            exact Or.inl rfl
          · rcases hmem with rfl | rfl
            · rw [hd]
              exact Or.inl rfl
            · rw [hd2]
              exact Or.inr rfl
        · simp [hq, hcu] at hcall
      · simp [hq] at hcall

/-- The library of the C6 counterexample: completions bound, returning 0. -/
def c6_lib : LoadedLibrary :=
  { validate_syntax_op := fun _ _ => ((0 : Int), ([] : List Nat)),
    validate_with_schema := none,
    get_completions := some (fun _ _ => ((0 : Int), ([] : List Nat))),
    get_classifications := none }

theorem get_completions_bound (f : FfiFn) (lib : LoadedLibrary)
    (q : List Nat) (c : Nat) (sj : Option (List Nat))
    (u : List Nat → Except String String)
    (pcm : String → Except String CompletionResult) (le : Option String)
    (hlib : lib.get_completions = some f)
    (hq : q.length ≤ cIntMax) (hc : c ≤ cIntMax) :
    get_completions lib q c sj u pcm le
      = ((call_ffi_json f u pcm le CompletionResult.default).1,
         (call_ffi_json f u pcm le CompletionResult.default).2.map fun cap =>
           { queryLen := (q.length : Int), cursorPos := some (c : Int),
             schemaLen := some (match sj with | some j => castCInt j.length | none => 0),
             outCap := castCInt cap }) := by
  unfold get_completions
  rw [hlib]
  simp [hq, hc]

/-- Counterexample to C6 as stated: a serialized schema of 2^31 bytes
(one more than `c_int` can represent) passed to `get_completions` is NOT
rejected — the native function is invoked (one call), the schema length
it receives is the wrapped value `-2147483648`, and the operation
returns a success. -/
theorem oversized_schema_not_rejected_counterexample :
    get_completions c6_lib [] 0 (some (List.replicate 2147483648 0))
        (fun _ => Except.error "") (fun _ => Except.error "") none
      = (CallResult.ok CompletionResult.default,
         [{ queryLen := 0, cursorPos := some 0,
            schemaLen := some (-2147483648), outCap := 65536 }])
    ∧ cIntMax < (List.replicate 2147483648 (0 : Nat)).length := by
  have hlen : (List.replicate 2147483648 (0 : Nat)).length = 2147483648 :=
    List.length_replicate 2147483648 0
  have hjson : call_ffi_json (fun _ _ => ((0 : Int), ([] : List Nat)))
      (fun _ => Except.error "") (fun _ => Except.error "")
      none CompletionResult.default
      = (CallResult.ok CompletionResult.default, [DEFAULT_BUFFER_SIZE]) := by
    rw [call_ffi_json_first_ok (fun _ _ => ((0 : Int), ([] : List Nat)))
        (fun _ => Except.error "") (fun _ => Except.error "") none
        CompletionResult.default (by rfl),
      finish_call_zero]
  constructor
  · rw [get_completions_bound (fun _ _ => ((0 : Int), ([] : List Nat))) c6_lib
      [] 0 (some (List.replicate 2147483648 0)) _ _ none rfl (by decide) (by decide)]
    rw [hjson]
    simp only [List.map_cons, List.map_nil]
    rw [show castCInt (List.replicate 2147483648 (0 : Nat)).length = -2147483648 from by
        rw [hlen]
        decide,
      show castCInt DEFAULT_BUFFER_SIZE = 65536 from by decide]
    rfl
  · rw [hlen]
    decide
